import Mathlib

/-!
Verification of the scroll-tracking behaviour of the portfolio single-page
application (src/src/App.jsx). The only runtime logic of the page is the
scroll tracker `handleScroll` (lines 88-109), the navigation helper
`scrollToSection` (lines 79-85) and the two pieces of React state
`isMenuOpen` (line 24) and `activeSection` (line 25). Everything below is a
shallow embedding of that code: DOM geometry becomes an explicit partial map
from element ids to offsets, and the event handlers become pure state
transformers.
-/

namespace Portfolio

/-- Geometry of a rendered DOM element as the tracker reads it:
`offsetTop` and `offsetHeight` in pixels. -/
structure DomElement where
  offsetTop : Int
  offsetHeight : Int
deriving DecidableEq, Repr

/-- A document snapshot: `document.getElementById` as a partial map from
element id to its geometry, `none` when no element with that id exists. -/
abbrev Document := String → Option DomElement

/-- The `navItems` array of App.jsx (lines 28-34): id and label pairs in
document order. -/
def navItems : List (String × String) :=
  [("home", "Home"), ("about", "About"), ("skills", "Skills"),
   ("projects", "Projects"), ("contact", "Contact")]

/-- `navItems.map(item => item.id)` (App.jsx line 90): the ordered section
identifiers the tracker iterates over. -/
def sectionIds : List String := navItems.map Prod.fst

/-- The initial value of the `activeSection` state, `useState('home')`
(App.jsx line 25). -/
def initialActiveSection : String := "home"

/-- The `for (const section of sections)` loop of `handleScroll`
(App.jsx lines 93-104): look the section id up in the document, skip it when
the element is missing, return the first id whose [top, top+height) range
contains `pos`, and return the previous `active` value when no id matches. -/
def scrollLoop (doc : Document) (pos : Int) : List String → String → String
  | [], active => active
  | s :: rest, active =>
    match doc s with
    | some el =>
      if pos ≥ el.offsetTop ∧ pos < el.offsetTop + el.offsetHeight then s
      else scrollLoop doc pos rest active
    | none => scrollLoop doc pos rest active

/-- The `handleScroll` listener (App.jsx lines 89-105): bias the scroll
offset by 100 px (`window.scrollY + 100`, line 91) and run the matching loop
over `sectionIds`, producing the new `activeSection` value. -/
def handleScroll (doc : Document) (scrollY : Int) (active : String) : String :=
  scrollLoop doc (scrollY + 100) sectionIds active

/-- Spec-side matching predicate: section `s` matches position `pos` when
its element exists and its [top, top+height) range contains `pos`
(the condition of App.jsx line 99). -/
def sectionMatches (doc : Document) (pos : Int) (s : String) : Bool :=
  match doc s with
  | some el => decide (pos ≥ el.offsetTop) && decide (pos < el.offsetTop + el.offsetHeight)
  | none => false

theorem sectionMatches_none {doc : Document} {s : String} (h : doc s = none)
    (pos : Int) : sectionMatches doc pos s = false := by
  simp [sectionMatches, h]

theorem sectionMatches_some {doc : Document} {s : String} {el : DomElement}
    (h : doc s = some el) (pos : Int) :
    sectionMatches doc pos s
      = (decide (pos ≥ el.offsetTop) && decide (pos < el.offsetTop + el.offsetHeight)) := by
  simp [sectionMatches, h]

/-- The loop returns the first matching section when one exists and the
previous active value otherwise. -/
theorem scrollLoop_eq_find (doc : Document) (pos : Int) :
    ∀ (ss : List String) (a : String),
      scrollLoop doc pos ss a = (ss.find? (sectionMatches doc pos)).getD a := by
  intro ss
  induction ss with
  | nil => intro a; rfl
  | cons s rest ih =>
    intro a
    cases h : doc s with
    | none =>
      have hm : sectionMatches doc pos s = false := sectionMatches_none h pos
      rw [List.find?_cons_of_neg _ (by simp [hm])]
      simpa [scrollLoop, h] using ih a
    | some el =>
      by_cases hc : pos ≥ el.offsetTop ∧ pos < el.offsetTop + el.offsetHeight
      · have hm : sectionMatches doc pos s = true := by
          rw [sectionMatches_some h]
          exact by simp [hc.1, hc.2]
        rw [List.find?_cons_of_pos _ hm]
        simp [scrollLoop, h, hc]
      · have hm : sectionMatches doc pos s = false := by
          rw [sectionMatches_some h]
          rcases Decidable.not_and_iff_or_not.mp hc with h1 | h2
          · simp [h1]
          · simp [h2]
        rw [List.find?_cons_of_neg _ (by simp [hm])]
        simpa [scrollLoop, h, hc] using ih a

theorem handleScroll_eq_find (doc : Document) (scrollY : Int) (a : String) :
    handleScroll doc scrollY a
      = (sectionIds.find? (sectionMatches doc (scrollY + 100))).getD a :=
  scrollLoop_eq_find doc (scrollY + 100) sectionIds a

/-- Two optional elements have overlapping [top, top+height) ranges; a
missing element overlaps nothing. -/
def elemsOverlapB : Option DomElement → Option DomElement → Bool
  | some el, some el' =>
    decide (el'.offsetTop < el.offsetTop + el.offsetHeight)
      && decide (el.offsetTop < el'.offsetTop + el'.offsetHeight)
  | _, _ => false

/-- The listed sections occupy pairwise non-overlapping vertical ranges in
the document, as vertically stacked page regions do. -/
def rangesSeparated (doc : Document) (ss : List String) : Prop :=
  ∀ s ∈ ss, ∀ t ∈ ss, s ≠ t → elemsOverlapB (doc s) (doc t) = false

instance (doc : Document) (ss : List String) :
    Decidable (rangesSeparated doc ss) := by
  unfold rangesSeparated
  infer_instance

/-- At most one of the listed sections matches any given position. -/
def atMostOneMatch (doc : Document) (ss : List String) : Prop :=
  ∀ (pos : Int), ∀ s ∈ ss, ∀ t ∈ ss,
    sectionMatches doc pos s = true → sectionMatches doc pos t = true → s = t

theorem matches_unique {doc : Document} {ss : List String}
    (hsep : rangesSeparated doc ss) (pos : Int) :
    ∀ s ∈ ss, ∀ t ∈ ss,
      sectionMatches doc pos s = true → sectionMatches doc pos t = true → s = t := by
  intro s hs t ht hms hmt
  by_contra hne
  have hov := hsep s hs t ht hne
  cases hdocs : doc s with
  | none => rw [sectionMatches_none hdocs] at hms; exact Bool.false_ne_true hms
  | some el =>
    cases hdoct : doc t with
    | none => rw [sectionMatches_none hdoct] at hmt; exact Bool.false_ne_true hmt
    | some el' =>
      rw [sectionMatches_some hdocs] at hms
      rw [sectionMatches_some hdoct] at hmt
      simp only [Bool.and_eq_true, decide_eq_true_eq] at hms hmt
      rw [hdocs, hdoct] at hov
      simp only [elemsOverlapB, Bool.and_eq_false_iff, decide_eq_false_iff_not,
        not_lt] at hov
      rcases hov with h1 | h2
      · exact absurd (lt_of_le_of_lt hmt.1 hms.2) (not_lt.mpr h1)
      · exact absurd (lt_of_le_of_lt hms.1 hmt.2) (not_lt.mpr h2)

theorem find?_eq_some_of_unique {p : String → Bool} :
    ∀ (ss : List String) (s : String), s ∈ ss → p s = true →
      (∀ t ∈ ss, p t = true → t = s) → ss.find? p = some s := by
  intro ss
  induction ss with
  | nil => intro s hmem; exact absurd hmem (List.not_mem_nil s)
  | cons t rest ih =>
    intro s hmem hp huniq
    by_cases hpt : p t = true
    · have : t = s := huniq t (List.mem_cons_self t rest) hpt
      rw [List.find?_cons_of_pos _ hpt, this]
    · rw [List.find?_cons_of_neg _ hpt]
      have hsmem : s ∈ rest := by
        rcases List.mem_cons.mp hmem with h | h
        · exact absurd (h ▸ hp) hpt
        · exact h
      exact ih s hsmem hp (fun u hu => huniq u (List.mem_cons_of_mem t hu))

/-- The concrete scenario of the spec: home occupies [0, 800), about
[800, 1600), skills [1600, 2400); the projects and contact elements are
absent. -/
def scenarioDoc : Document := fun s =>
  if s = "home" then some ⟨0, 800⟩
  else if s = "about" then some ⟨800, 800⟩
  else if s = "skills" then some ⟨1600, 800⟩
  else none

/-- A document whose first section is only 50 px tall, so the 100 px bias
skips past it at scroll offset 0. -/
def shortFirstDoc : Document := fun s =>
  if s = "home" then some ⟨0, 50⟩
  else if s = "about" then some ⟨50, 800⟩
  else none

/-- A document in which two element ids share the same vertical range. -/
def overlapDoc : Document := fun s =>
  if s = "a" then some ⟨0, 200⟩
  else if s = "b" then some ⟨0, 200⟩
  else none

/-- The two React state cells of the App component (App.jsx lines 24-25):
the mobile-menu flag and the active-section identifier. -/
structure AppState where
  isMenuOpen : Bool
  activeSection : String
deriving DecidableEq, Repr

/-- The state at page mount: menu closed, first section active. -/
def initialState : AppState :=
  { isMenuOpen := false, activeSection := initialActiveSection }

/-- `scrollToSection` (App.jsx lines 79-85): look the element up, request a
smooth scroll when it exists, and close the mobile menu unconditionally.
The returned Bool records whether `scrollIntoView` was invoked; the
function never touches `activeSection`. -/
def scrollToSection (doc : Document) (sectionId : String) (s : AppState) :
    AppState × Bool :=
  ({ s with isMenuOpen := false }, (doc sectionId).isSome)

/-- The user actions that reach a state setter: a scroll event (runs
`handleScroll`), a navigation click (runs `scrollToSection`), and the
mobile menu button (`setIsMenuOpen(!isMenuOpen)`, App.jsx line 145). -/
inductive UserEvent where
  | scroll (doc : Document) (scrollY : Int)
  | navClick (doc : Document) (sectionId : String)
  | menuToggle

/-- One step of the page session: how each user event transforms the React
state. -/
def step (e : UserEvent) (s : AppState) : AppState :=
  match e with
  | .scroll doc y => { s with activeSection := handleScroll doc y s.activeSection }
  | .navClick doc sid => (scrollToSection doc sid s).1
  | .menuToggle => { s with isMenuOpen := !s.isMenuOpen }

/-- A scroll event carries the document snapshot and the scroll offset. -/
abbrev ScrollEvent := Document × Int

/-- The active-section value after a sequence of scroll events, starting
from the initial state. -/
def sessionActive (events : List ScrollEvent) : String :=
  events.foldl (fun a e => handleScroll e.1 e.2 a) initialActiveSection

theorem handleScroll_mem_or_eq (doc : Document) (y : Int) (a : String) :
    handleScroll doc y a ∈ sectionIds ∨ handleScroll doc y a = a := by
  rw [handleScroll_eq_find]
  cases hf : sectionIds.find? (sectionMatches doc (y + 100)) with
  | none => exact Or.inr rfl
  | some s => exact Or.inl (by simpa using List.mem_of_find?_eq_some hf)

theorem handleScroll_mem {doc : Document} {y : Int} {a : String}
    (ha : a ∈ sectionIds) : handleScroll doc y a ∈ sectionIds := by
  rcases handleScroll_mem_or_eq doc y a with h | h
  · exact h
  · rw [h]; exact ha

theorem foldl_handleScroll_mem :
    ∀ (events : List ScrollEvent) (a : String), a ∈ sectionIds →
      events.foldl (fun a e => handleScroll e.1 e.2 a) a ∈ sectionIds := by
  intro events
  induction events with
  | nil => intro a ha; simpa using ha
  | cons e rest ih =>
    intro a ha
    simpa [List.foldl_cons] using ih (handleScroll e.1 e.2 a) (handleScroll_mem ha)

theorem scrollLoop_filter (doc : Document) (pos : Int) :
    ∀ (ss : List String) (a : String),
      scrollLoop doc pos ss a
        = scrollLoop doc pos (ss.filter (fun s => (doc s).isSome)) a := by
  intro ss
  induction ss with
  | nil => intro a; rfl
  | cons s rest ih =>
    intro a
    cases h : doc s with
    | none => simp [scrollLoop, List.filter_cons, h, ih]
    | some el =>
      by_cases hc : pos ≥ el.offsetTop ∧ pos < el.offsetTop + el.offsetHeight
      · simp [scrollLoop, List.filter_cons, h, hc]
      · simp [scrollLoop, List.filter_cons, h, hc, ih]

/-- Claim C1: on a scroll event the tracker adds the fixed 100 px bias to
the scroll offset, iterates the sections in document order (the order of
`navItems`), and sets the active-section state to the first section whose
[top, top+height) range contains the biased offset; when no section's range
contains it, the previous active-section value is retained (the `getD`
fallback). -/
theorem scroll_step_first_match_or_retain (doc : Document) (y : Int) (s : AppState) :
    (step (UserEvent.scroll doc y) s).activeSection
      = ((navItems.map Prod.fst).find? (sectionMatches doc (y + 100))).getD
          s.activeSection := by
  show handleScroll doc y s.activeSection = _
  exact handleScroll_eq_find doc y s.activeSection

/-- Claim C2: when the biased offset `y + 100` lies within a listed
section's [top, top+height) range and the listed sections occupy pairwise
non-overlapping ranges (as the vertically stacked page regions of the data
model do), the tracker reports that section as active. -/
theorem tracker_reports_containing_section (doc : Document) (y : Int)
    (a s : String) (el : DomElement)
    (hsep : rangesSeparated doc sectionIds)
    (hmem : s ∈ sectionIds)
    (hel : doc s = some el)
    (htop : y + 100 ≥ el.offsetTop)
    (hht : y + 100 < el.offsetTop + el.offsetHeight) :
    handleScroll doc y a = s := by
  have hm : sectionMatches doc (y + 100) s = true := by
    rw [sectionMatches_some hel]
    simp [htop, hht]
  rw [handleScroll_eq_find]
  rw [find?_eq_some_of_unique sectionIds s hmem hm
    (fun t ht hmt => matches_unique hsep (y + 100) t ht s hmem hmt hm)]
  rfl

/-- Witness for C2: in the concrete scenario document, scroll offset 750 is
biased to 850, which lies in the about section's range [800, 1600), and the
tracker indeed reports "about". -/
theorem tracker_reports_containing_section_witness :
    handleScroll scenarioDoc 750 "home" = "about" :=
  tracker_reports_containing_section scenarioDoc 750 "home" "about" ⟨800, 800⟩
    (by decide) (by decide) (by decide) (by decide) (by decide)

/-- Claim C3: in the scenario with home [0, 800), about [800, 1600) and
skills [1600, 2400), scroll offset 750 (biased 850) makes "about" active,
and scroll offset 2500 (biased 2600, past every range) leaves the previous
active value unchanged. -/
theorem scenario_scroll750_about_scroll2500_retain (a : String) :
    handleScroll scenarioDoc 750 a = "about"
      ∧ handleScroll scenarioDoc 2500 a = a :=
  ⟨rfl, rfl⟩

/-- Claim C4: the active-section state starts as "home", the first section,
and after any sequence of scroll events it is still one of the five fixed
section identifiers. -/
theorem active_section_always_in_fixed_set :
    initialActiveSection = "home"
      ∧ ∀ (events : List ScrollEvent), sessionActive events ∈ sectionIds :=
  ⟨rfl, fun events => foldl_handleScroll_mem events initialActiveSection (by decide)⟩

/-- Claim C5: running the tracker twice with the same document and scroll
offset gives the same active section as running it once. -/
theorem tracker_idempotent (doc : Document) (y : Int) (a : String) :
    handleScroll doc y (handleScroll doc y a) = handleScroll doc y a := by
  simp only [handleScroll_eq_find]
  cases hf : sectionIds.find? (sectionMatches doc (y + 100)) <;> simp

/-- Claim C6 counterexample: it is not true that for every document and
every list of sections at most one section matches a given position — two
ids sharing the range [0, 200) both match position 100. -/
theorem overlapping_sections_two_matches :
    ¬ ∀ (doc : Document) (ss : List String), atMostOneMatch doc ss := by
  intro h
  have hab := h overlapDoc ["a", "b"] 100 "a" (by simp) "b" (by simp)
    (by decide) (by decide)
  simp at hab

/-- Claim C6 (amended): when the listed sections occupy pairwise
non-overlapping ranges, at most one section's [top, top+height) range
contains any given position. -/
theorem separated_sections_at_most_one_match (doc : Document) (ss : List String)
    (hsep : rangesSeparated doc ss) : atMostOneMatch doc ss :=
  fun pos s hs t ht hms hmt => matches_unique hsep pos s hs t ht hms hmt

/-- Witness for the amended C6: the scenario document's sections are
separated, so at most one of them matches any position. -/
theorem separated_sections_at_most_one_match_witness :
    atMostOneMatch scenarioDoc sectionIds :=
  separated_sections_at_most_one_match scenarioDoc sectionIds (by decide)

/-- Claim C7 counterexample: with a first section only 50 px tall, the
100 px bias lands in the second section at scroll offset 0, so the tracker
activates "about", not the first section "home". -/
theorem scroll_zero_not_first_section :
    sectionIds.head? = some "home"
      ∧ handleScroll shortFirstDoc 0 initialActiveSection = "about"
      ∧ ("about" = "home" → False) :=
  ⟨rfl, rfl, by decide⟩

/-- Claim C7 (amended): at scroll offset 0 the tracker activates the first
section "home" provided the home element's range contains the biased
offset 100 — for instance when it starts at the top of the page and is
taller than the 100 px bias. -/
theorem scroll_zero_first_section_when_tall_enough (doc : Document) (a : String)
    (el : DomElement) (hel : doc "home" = some el)
    (htop : el.offsetTop ≤ 100) (hht : (100 : Int) < el.offsetTop + el.offsetHeight) :
    handleScroll doc 0 a = "home" := by
  have hm : sectionMatches doc 100 "home" = true := by
    rw [sectionMatches_some hel]
    simp [htop, hht, ge_iff_le]
  have hsec : sectionIds = "home" :: ["about", "skills", "projects", "contact"] := rfl
  rw [handleScroll_eq_find]
  have h0 : (0 : Int) + 100 = 100 := by norm_num
  rw [h0, hsec, List.find?_cons_of_pos _ hm]
  rfl

/-- Witness for the amended C7: in the scenario document the home section
spans [0, 800), so scrolling to offset 0 activates "home". -/
theorem scroll_zero_first_section_witness :
    handleScroll scenarioDoc 0 "contact" = "home" :=
  scroll_zero_first_section_when_tall_enough scenarioDoc "contact" ⟨0, 800⟩
    (by decide) (by decide) (by decide)

/-- Claim C8: the tracker is total — it behaves exactly as if sections with
missing elements were absent from the list for that pass, and it always
produces a well-defined result, either a listed section or the unchanged
previous value. -/
theorem tracker_total_and_skips_missing (doc : Document) (y : Int) (a : String) :
    handleScroll doc y a
        = scrollLoop doc (y + 100) (sectionIds.filter (fun s => (doc s).isSome)) a
      ∧ (handleScroll doc y a ∈ sectionIds ∨ handleScroll doc y a = a) :=
  ⟨scrollLoop_filter doc (y + 100) sectionIds a, handleScroll_mem_or_eq doc y a⟩

/-- Claim C9 counterexample: the mobile-menu button is a user action that
mutates state other than the active section — toggling it from the initial
state flips the menu flag. -/
theorem menu_toggle_mutates_menu_state :
    initialState.isMenuOpen = false
      ∧ (step UserEvent.menuToggle initialState).isMenuOpen = true
      ∧ (step UserEvent.menuToggle initialState).activeSection
          = initialState.activeSection :=
  ⟨rfl, rfl, rfl⟩

/-- Claim C9 (amended): the runtime state mutated by user action comprises
exactly the active section and the menu flag — scroll events change only
the active section, while navigation clicks and menu toggles change only
the menu flag. -/
theorem user_event_mutation_frame :
    (∀ (doc : Document) (y : Int) (s : AppState),
        (step (UserEvent.scroll doc y) s).isMenuOpen = s.isMenuOpen)
      ∧ (∀ (doc : Document) (sid : String) (s : AppState),
        (step (UserEvent.navClick doc sid) s).activeSection = s.activeSection)
      ∧ (∀ (s : AppState),
        (step UserEvent.menuToggle s).activeSection = s.activeSection) :=
  ⟨fun _ _ _ => rfl, fun _ _ _ => rfl, fun _ => rfl⟩

/-- Claim C10: for every section identifier — element present or not —
`scrollToSection` closes the mobile menu and leaves the active-section
state unchanged. -/
theorem scrollToSection_closes_menu_preserves_active (doc : Document)
    (sid : String) (s : AppState) :
    (scrollToSection doc sid s).1.isMenuOpen = false
      ∧ (scrollToSection doc sid s).1.activeSection = s.activeSection :=
  ⟨rfl, rfl⟩

end Portfolio
